import Mathlib

/-!
Shallow embedding of the BleScope pipeline: the iBeacon decoder and
manufacturer-data decoder registry (libs/blescope-dissector), the observable
in-memory device repository and its event-publishing observer
(src/blescope/device_management), the Bleak scanner adapter's detection
processing (src/blescope/scanning/infrastructure), and the scan lifecycle
manager (src/blescope/scanning/application).  Bytes are modelled as `List Nat`
(each element a byte value), Python dicts as association lists, and Python
`Optional` as `Option`.
-/

namespace BleScope

/-! ### Byte and hex utilities -/

/-- Lowercase hex digit for a nibble, as produced by Python `bytes.hex()`. -/
def hexDigit (n : Nat) : Char :=
  if n < 10 then Char.ofNat (48 + n) else Char.ofNat (87 + n)

/-- Two lowercase hex digits of one byte, as in Python `bytes.hex()`. -/
def byteHex (b : Nat) : String :=
  String.mk [hexDigit (b / 16 % 16), hexDigit (b % 16)]

/-- Python `bytes.hex()`: concatenated two-digit lowercase hex of each byte. -/
def bytesHex (bs : List Nat) : String :=
  String.join (bs.map byteHex)

/-- Uppercase hex digit for a nibble, as used by Python format `X`. -/
def hexDigitUpper (n : Nat) : Char :=
  if n < 10 then Char.ofNat (48 + n) else Char.ofNat (55 + n)

/-- Hex digits of the second argument (uppercase, most significant first,
none for 0); the first argument is structural fuel, sufficient whenever it
is at least the value itself. -/
def natHexAux : Nat → Nat → List Char
  | 0, _ => []
  | _ + 1, 0 => []
  | fuel + 1, n + 1 =>
    natHexAux fuel ((n + 1) / 16) ++ [hexDigitUpper ((n + 1) % 16)]

/-- Python `f"0x\x7bcid:04X\x7d"` digit part: uppercase hex, zero-padded to
width 4. -/
def hex04X (n : Nat) : String :=
  let ds := natHexAux n n
  String.mk (List.replicate (4 - ds.length) '0' ++ ds)

/-- Association-list lookup, the model of Python `dict.get` / `dict[k]`
(first binding for the key). -/
def alookup {κ ν : Type} [DecidableEq κ] (k : κ) : List (κ × ν) → Option ν
  | [] => none
  | p :: ps => if p.1 = k then some p.2 else alookup k ps

/-- Signed interpretation of one byte, as Python `struct` format `b`. -/
def signed8 (b : Nat) : Int :=
  if b < 128 then (b : Int) else (b : Int) - 256

/-- Standard textual form of a 16-byte UUID (8-4-4-4-12 lowercase hex groups),
as produced by `str(uuid.UUID(bytes=...))` in Python. -/
def uuidStr (bs : List Nat) : String :=
  bytesHex (bs.take 4) ++ "-" ++
  bytesHex ((bs.drop 4).take 2) ++ "-" ++
  bytesHex ((bs.drop 6).take 2) ++ "-" ++
  bytesHex ((bs.drop 8).take 2) ++ "-" ++
  bytesHex (bs.drop 10)

/-! ### iBeacon decoder (blescope_dissector/beacon.py) -/

/-- `IBeaconDecoder.IBEACON_COMPANY_ID` (Apple Inc.). -/
def IBEACON_COMPANY_ID : Nat := 0x004C

/-- `IBeaconDecoder.IBEACON_TYPE` (proximity beacon sub-type marker). -/
def IBEACON_TYPE : Nat := 0x02

/-- `IBeaconDecoder.IBEACON_LENGTH` (fixed length marker). -/
def IBEACON_LENGTH : Nat := 0x15

/-- `IBeaconDecoder.can_decode`: company id is 0x004C, at least 23 bytes,
byte 0 is 0x02 and byte 1 is 0x15. -/
def can_decode (company_id : Nat) (data : List Nat) : Bool :=
  company_id == IBEACON_COMPANY_ID &&
  decide (23 ≤ data.length) &&
  data.getD 0 0 == IBEACON_TYPE &&
  data.getD 1 0 == IBEACON_LENGTH

/-- Decoded `IBeaconAdvertisement` fields (uuid as its textual form). -/
structure IBeaconAdv where
  uuid : String
  major : Nat
  minor : Nat
  measured_power_dbm : Int
  deriving Repr, DecidableEq

/-- `IBeaconDecoder.decode`: returns `none` unless `can_decode` holds;
otherwise reads `data[2:18]` as the UUID, `data[18:23]` with struct format
`>HHb` (big-endian unsigned 16-bit major and minor, then a signed byte). -/
def iBeaconDecode (company_id : Nat) (data : List Nat) : Option IBeaconAdv :=
  if can_decode company_id data then
    some { uuid := uuidStr ((data.drop 2).take 16)
           major := 256 * data.getD 18 0 + data.getD 19 0
           minor := 256 * data.getD 20 0 + data.getD 21 0
           measured_power_dbm := signed8 (data.getD 22 0) }
  else
    none

/-! ### BeaconAdvertisement.__post_init__ (beacon.py) -/

/-- `BeaconAdvertisement.__post_init__`: unifies `measured_power_dbm` and
`tx_power`.  If only one is provided the other is mirrored from it; if both
are provided and disagree, `measured_power_dbm` is preferred and `tx_power`
is overwritten to match. Returns the pair (measured_power_dbm, tx_power)
after construction. -/
def beaconPostInit (measured_power_dbm tx_power : Option Int) :
    Option Int × Option Int :=
  if measured_power_dbm.isNone && tx_power.isSome then
    (tx_power, tx_power)
  else if measured_power_dbm.isSome && tx_power.isNone then
    (measured_power_dbm, measured_power_dbm)
  else if measured_power_dbm.isSome && tx_power.isSome then
    if measured_power_dbm ≠ tx_power then
      (measured_power_dbm, measured_power_dbm)
    else
      (measured_power_dbm, tx_power)
  else
    (measured_power_dbm, tx_power)

/-! ### BeaconAdvertisement.estimate_distance (beacon.py)

Python floats are modelled by `ℝ`; the log-distance path-loss formula
`10 ** ((A - rssi) / (10 * n))` uses real exponentiation, hence these
definitions are noncomputable. -/

/-- `BeaconAdvertisement.estimate_distance`: returns `none` when the
measured power `A` is absent, when `path_loss_exponent ≤ 0`, when `A` is
outside `[-100, -10]`, or when `rssi_dbm ≥ 0`; otherwise
`10 ^ ((A - rssi) / (10 * n))` meters. -/
noncomputable def estimate_distance (measured_power_dbm : Option Int)
    (rssi_dbm : ℝ) (path_loss_exponent : ℝ) : Option ℝ :=
  match measured_power_dbm with
  | none => none
  | some A =>
    if path_loss_exponent ≤ 0 then none
    else if ¬(-100 ≤ A ∧ A ≤ -10) then none
    else if 0 ≤ rssi_dbm then none
    else some ((10 : ℝ) ^ (((A : ℝ) - rssi_dbm) / (10 * path_loss_exponent)))

/-! ### ManufacturerDataDecoder (blescope_dissector/decoder.py)

A registered decoder is a `can_decode` predicate together with a `decode`
function; `Except` models a Python exception raised by `decode`, and the
inner `Option` models `decode` returning `None`.  The decoder result type
`α` is abstract (the registry is pluggable). -/

/-- A pluggable `AdvertisementDecoder` (interface in base.py). -/
structure AdvDecoder (α : Type) where
  canDecode : Nat → List Nat → Bool
  decode : Nat → List Nat → Except String (Option α)

/-- The advertisement stored in a `DecodedManufacturerData`: either the
output of a specific decoder, or the generic `DecodedAvertisement` fallback
carrying a description built from the raw bytes. -/
inductive RegAdvertisement (α : Type) where
  | specific (a : α)
  | generic (description : String)
  deriving DecidableEq

/-- `DecodedManufacturerData`: resolved company name, advertisement, raw
payload bytes. -/
structure DecodedManufacturerData (α : Type) where
  companyName : String
  advertisement : RegAdvertisement α
  rawData : List Nat
  deriving DecidableEq

/-- `ManufacturerDataDecoder.get_manufacturer_name` resolution: table lookup
with the `Unknown (0x....)` placeholder synthesized for unknown ids. -/
def vendorName (table : List (Nat × String)) (company_id : Nat) : String :=
  (alookup company_id table).getD ("Unknown (0x" ++ hex04X company_id ++ ")")

/-- The decoder loop inside `ManufacturerDataDecoder.decode`: walk the
registered decoders in order; the first whose `canDecode` holds has its
`decode` invoked (an exception is caught, leaving the result `none`) and the
loop breaks.  Returns the decoded advertisement (if any) together with the
list of decoders whose `decode` was actually invoked. -/
def tryDecoders (company_id : Nat) (data : List Nat) :
    List (AdvDecoder α) → Option α × List (AdvDecoder α)
  | [] => (none, [])
  | d :: ds =>
    if d.canDecode company_id data then
      match d.decode company_id data with
      | Except.ok a? => (a?, [d])
      | Except.error _ => (none, [d])
    else
      tryDecoders company_id data ds

/-- One entry of `ManufacturerDataDecoder.decode`: resolve the company,
run the decoder loop, and fall back to a generic advertisement built from
the company name and the hex-encoded raw bytes when no decoder produced a
result. -/
def decodeEntry (table : List (Nat × String)) (decoders : List (AdvDecoder α))
    (company_id : Nat) (data : List Nat) : DecodedManufacturerData α :=
  let name := vendorName table company_id
  match (tryDecoders company_id data decoders).1 with
  | some a => ⟨name, RegAdvertisement.specific a, data⟩
  | none => ⟨name, RegAdvertisement.generic (name ++ " - Raw: " ++ bytesHex data), data⟩

/-- `ManufacturerDataDecoder.decode`: one result per entry of the
manufacturer-data map (modelled as an association list). -/
def registryDecode (table : List (Nat × String))
    (decoders : List (AdvDecoder α)) (manufacturer_data : List (Nat × List Nat)) :
    List (DecodedManufacturerData α) :=
  manufacturer_data.map (fun e => decodeEntry table decoders e.1 e.2)

/-- The registry as constructed in `ManufacturerDataDecoder.__init__`:
the single registered decoder is `IBeaconDecoder` (its `decode` never
raises; failure is modelled by the inner `Option`). -/
def iBeaconRegisteredDecoder : AdvDecoder IBeaconAdv :=
  { canDecode := can_decode
    decode := fun c d => Except.ok (iBeaconDecode c d) }

/-! ### Device and the observable repository
(device_management/domain/device.py,
 device_management/infrastructure/adapters/observable_device_repository.py)

The `Device` dataclass is reduced to the fields the claims touch; the
repository's dict is an association list keyed by address, and observer
dispatch is recorded as a list of notifications. -/

/-- The `Device` fields relevant to change detection and the store. -/
structure Dev where
  address : String
  name : Option String
  rssi : Int
  manufacturer_data : List (Nat × List Nat)
  deriving Repr, DecidableEq

/-- One observer dispatch performed by the repository. -/
inductive Notif where
  | created (d : Dev)
  | updated (d : Dev)
  | deleted (address : String)
  deriving Repr, DecidableEq

/-- Python dict assignment `m[k] = v`: replace in place if the key exists,
append otherwise. -/
def dictInsert (k : String) (v : Dev) : List (String × Dev) → List (String × Dev)
  | [] => [(k, v)]
  | p :: ps => if p.1 = k then (k, v) :: ps else p :: dictInsert k v ps

/-- Python `del m[k]`: remove the (single) binding for `k`. -/
def dictErase (k : String) : List (String × Dev) → List (String × Dev)
  | [] => []
  | p :: ps => if p.1 = k then ps else p :: dictErase k ps

/-- `InMemoryObservableDeviceRepository.save`: under the lock, test whether
the address is new, store the device unconditionally, then notify observers
with `on_device_created` when new and `on_device_updated` otherwise. -/
def repoSave (devices : List (String × Dev)) (d : Dev) :
    List (String × Dev) × List Notif :=
  let is_new := (alookup d.address devices).isNone
  let devices := dictInsert d.address d devices
  if is_new then (devices, [Notif.created d]) else (devices, [Notif.updated d])

/-- `InMemoryObservableDeviceRepository.delete`: under the lock, when the
address is present remove it and notify `on_device_deleted`; otherwise do
nothing. -/
def repoDelete (devices : List (String × Dev)) (address : String) :
    List (String × Dev) × List Notif :=
  if (alookup address devices).isSome then
    (dictErase address devices, [Notif.deleted address])
  else
    (devices, [])

/-! ### Lock/notification traces for the repository

`save` and `delete` execute entirely inside `async with self._lock: ...`;
the observer dispatch (`await self._notify_device_*`, which gathers the
spawned observer tasks) is awaited inside that block.  The temporal shape is
recorded as a trace of atomic actions. -/

/-- Atomic actions of one repository operation. -/
inductive LockAction where
  | acquire
  | mapOp
  | notify
  | release
  deriving Repr, DecidableEq, BEq

/-- Python `async with self._lock: body`: acquire, run the body, release. -/
def asyncWithLock (body : List LockAction) : List LockAction :=
  LockAction.acquire :: body ++ [LockAction.release]

/-- Trace of `save`: the membership test plus dict write, then the awaited
observer notification, all inside the `async with` block. -/
def saveTrace : List LockAction :=
  asyncWithLock [LockAction.mapOp, LockAction.notify]

/-- Trace of `delete` on a present address: dict delete then awaited
notification inside the `async with` block; on an absent address only the
membership test runs. -/
def deleteTrace (present : Bool) : List LockAction :=
  if present then asyncWithLock [LockAction.mapOp, LockAction.notify]
  else asyncWithLock [LockAction.mapOp]

/-! ### EventPublishingObserver.on_device_updated
(device_management/infrastructure/observers/event_publishing_observer.py) -/

/-- The observer's per-address tracked state: rssi and name last published. -/
structure LastKnown where
  rssi : Int
  name : Option String
  deriving Repr, DecidableEq

/-- `EventPublishingObserver._rssi_change_threshold`. -/
def RSSI_CHANGE_THRESHOLD : Nat := 5

/-- The significance test inside `EventPublishingObserver.on_device_updated`:
significant when `abs(last_state.get('rssi', 0) - device.rssi.value)` is at
least the threshold (the missing-state default is 0) or the tracked name
differs from the device's name. -/
def observerSignificant (last : Option LastKnown) (d : Dev) : Bool :=
  let lastRssi : Int := match last with
    | some s => s.rssi
    | none => 0
  let lastName : Option String := match last with
    | some s => s.name
    | none => none
  decide (RSSI_CHANGE_THRESHOLD ≤ (lastRssi - d.rssi).natAbs) ||
  decide (lastName ≠ d.name)

/-- `EventPublishingObserver.on_device_updated`: when the change is
significant, update the tracked state and publish a `DeviceUpdated` event
(returned as `true`); otherwise leave the state and publish nothing. -/
def onDeviceUpdated (state : List (String × LastKnown)) (d : Dev) :
    List (String × LastKnown) × Bool :=
  if observerSignificant (alookup d.address state) d then
    ((d.address, ⟨d.rssi, d.name⟩) :: state.filter (fun p => p.1 ≠ d.address), true)
  else
    (state, false)

/-! ### BleakScannerAdapter._process_detection change check
(scanning/infrastructure/adapters/bleak_scanner_adapter.py, lines 143-150) -/

/-- Python dict equality on the manufacturer-data maps (same key set, equal
values), over association lists. -/
def dictBEq (m1 m2 : List (Nat × List Nat)) : Bool :=
  m1.all (fun p => alookup p.1 m2 == some p.2) &&
  m2.all (fun p => alookup p.1 m1 == some p.2)

/-- The adapter's significance check for an already-known device, verbatim
from the source:
`rssi_delta = abs(existing_device.rssi.value - existing_device.rssi.value)`
(the subtraction's two operands are both the stored value, so the incoming
`advRssi` is never consulted);
`named_changed = device.name != existing.name and device.name is not None`;
`manufacturer_changed = dict(adv.manufacturer_data) != existing.manufacturer_data
 if adv.manufacturer_data else False`. -/
def adapterSignificant (existingRssi : Int) (existingName : Option String)
    (existingData : List (Nat × List Nat)) (advRssi : Int)
    (devName : Option String) (advData : List (Nat × List Nat)) : Bool :=
  let rssi_delta : Nat := (existingRssi - existingRssi).natAbs
  let named_changed : Bool := decide (devName ≠ existingName) && devName.isSome
  let manufacturer_changed : Bool :=
    if advData.isEmpty then false else !dictBEq advData existingData
  decide (RSSI_CHANGE_THRESHOLD ≤ rssi_delta) || named_changed || manufacturer_changed

/-- The significance condition as the specification states it: compare the
stored old RSSI with the incoming candidate RSSI. -/
def specSignificant (existingRssi : Int) (existingName : Option String)
    (existingData : List (Nat × List Nat)) (advRssi : Int)
    (devName : Option String) (advData : List (Nat × List Nat)) : Bool :=
  decide (RSSI_CHANGE_THRESHOLD ≤ (existingRssi - advRssi).natAbs) ||
  (decide (devName ≠ existingName) && devName.isSome) ||
  !dictBEq advData existingData

/-! ### The ingestion queue (bleak_scanner_adapter.py)

`self._discovered_queue = asyncio.Queue()` (line 23): no `maxsize` argument,
so asyncio's default `maxsize = 0` applies, which per asyncio semantics
means the queue size is unbounded.  `put_nowait` raises `QueueFull` only
when `0 < maxsize ≤ qsize`; `_process_detection` catches `QueueFull` and
drops the item with a warning (lines 186-190). -/

/-- The `maxsize` of the adapter's queue: `asyncio.Queue()` default. -/
def discoveredQueueMaxsize : Nat := 0

/-- `asyncio.Queue.put_nowait` with the given `maxsize`: raise `QueueFull`
(second component `true`) when the queue is bounded and full, otherwise
append.  A `maxsize` of 0 means unbounded. -/
def putNowait (maxsize : Nat) (items : List Dev) (x : Dev) :
    List Dev × Bool :=
  if 0 < maxsize ∧ maxsize ≤ items.length then (items, true)
  else (items ++ [x], false)

/-- The enqueue in `_process_detection`: `put_nowait` on the adapter's queue
with the `QueueFull` handler dropping the item (second component `true` when
the drop-and-warn branch ran). -/
def enqueueDiscovered (items : List Dev) (x : Dev) : List Dev × Bool :=
  putNowait discoveredQueueMaxsize items x

/-! ### ScanManager (scanning/application/services/scan_manager.py)

The `Scan` domain class, `ScanRepository` and `EventBus` modules are not in
the source tree; they are modelled from the spec below.  `scan_manager.py`
itself is in the tree and is embedded faithfully. -/

/-- Modelled from the spec: `ScanSession` state, `state ∈ \x7bidle, scanning,
stopped\x7d` (the `scanning.domain.scan` module is not in the source tree). -/
inductive ScanState where
  | idle
  | scanning
  | stopped
  deriving Repr, DecidableEq

/-- Modelled from the spec: a `ScanSession` is an id, a state and the set of
discovered addresses; `start()` transitions it to scanning and `stop()` to
stopped (the `scanning.domain.scan` module is not in the source tree). -/
structure Scan where
  id : String
  state : ScanState
  discovered_devices : List String
  deriving Repr, DecidableEq

/-- Status of the background asyncio task held in `ScanManager._scan_task`. -/
inductive TaskStatus where
  | running
  | done
  deriving Repr, DecidableEq

/-- Events published on the bus by the manager. -/
inductive ScanEvent where
  | scanStarted (scan_id : String)
  | scanStopped (scan_id : String) (devices_found : Nat)
  deriving Repr, DecidableEq

/-- The `InvalidScanStateError` cases raised by the manager. -/
inductive InvalidScanState where
  | alreadyRunning
  | noActiveScan
  deriving Repr, DecidableEq

/-- The manager's state: the optional background task, the repository's
current scan (modelled from the spec: `ScanRepository` holds one current
session), the events published so far, and whether the external scanner's
loop is running. -/
structure ManagerState where
  scan_task : Option TaskStatus
  current_scan : Option Scan
  published : List ScanEvent
  scannerRunning : Bool
  deriving Repr, DecidableEq

/-- `self._scan_task and not self._scan_task.done()`. -/
def taskActive (t : Option TaskStatus) : Bool :=
  match t with
  | some TaskStatus.running => true
  | _ => false

/-- The "get the current scan or create a fresh one, then `scan.start()`"
step of `start_scan`: reuse the repository's current session if any, else a
new session with the generated id; either way `scan.start()` leaves it in
the scanning state. -/
def startedScan (current : Option Scan) (new_id : String) : Scan :=
  match current with
  | some sc => { sc with state := ScanState.scanning }
  | none => { id := new_id, state := ScanState.scanning, discovered_devices := [] }

/-- `ScanManager.start_scan`: fail with `InvalidScanStateError` when a scan
task is active; otherwise get the current scan or create a fresh one
(`new_id` stands for `generate_scan_id()`), transition it to scanning,
persist it, publish `ScanStarted`, start the background loop, and return
the scan id. -/
def start_scan (s : ManagerState) (new_id : String) :
    Except InvalidScanState (ManagerState × String) :=
  if taskActive s.scan_task then
    Except.error InvalidScanState.alreadyRunning
  else
    let scan := startedScan s.current_scan new_id
    Except.ok
      ({ scan_task := some TaskStatus.running
         current_scan := some scan
         published := s.published ++ [ScanEvent.scanStarted scan.id]
         scannerRunning := true }, scan.id)

/-- `ScanManager.stop_scan`: fail with `InvalidScanStateError` when there is
no current scan or it is not in the scanning state; otherwise transition it
to stopped, persist it, stop the scanner, cancel the background task, and
publish `ScanStopped` with the count of discovered addresses. -/
def stop_scan (s : ManagerState) : Except InvalidScanState ManagerState :=
  match s.current_scan with
  | none => Except.error InvalidScanState.noActiveScan
  | some scan =>
    if scan.state ≠ ScanState.scanning then
      Except.error InvalidScanState.noActiveScan
    else
      let scan := { scan with state := ScanState.stopped }
      Except.ok
        { scan_task := none
          current_scan := some scan
          published := s.published ++
            [ScanEvent.scanStopped scan.id scan.discovered_devices.length]
          scannerRunning := false }

/-- The end-to-end example payload from the spec:
`02 15 <16-byte UUID> 00 01 00 02 C5` with UUID bytes 00 11 ... ff. -/
def examplePayload : List Nat :=
  [0x02, 0x15,
   0x00, 0x11, 0x22, 0x33, 0x44, 0x55, 0x66, 0x77,
   0x88, 0x99, 0xAA, 0xBB, 0xCC, 0xDD, 0xEE, 0xFF,
   0x00, 0x01, 0x00, 0x02, 0xC5]

/-! ## Helper lemmas -/

theorem alookup_dictInsert_self (k : String) (v : Dev) (l : List (String × Dev)) :
    alookup k (dictInsert k v l) = some v := by
  induction l with
  | nil => simp [dictInsert, alookup]
  | cons p ps ih =>
    by_cases h : p.1 = k
    · simp [dictInsert, h, alookup]
    · simp [dictInsert, h, alookup, ih]

theorem alookup_eq_none_of_not_mem (k : String) (l : List (String × Dev))
    (h : k ∉ l.map Prod.fst) : alookup k l = none := by
  induction l with
  | nil => rfl
  | cons p ps ih =>
    have h1 : ¬(p.1 = k) := fun he => h (by simp [he])
    have h2 : k ∉ ps.map Prod.fst := fun hm => h (by simp [hm])
    simp [alookup, h1, ih h2]

theorem alookup_dictErase_self (k : String) (l : List (String × Dev))
    (hnd : (l.map Prod.fst).Nodup) : alookup k (dictErase k l) = none := by
  induction l with
  | nil => rfl
  | cons p ps ih =>
    simp only [List.map_cons, List.nodup_cons] at hnd
    by_cases h : p.1 = k
    · have hk : k ∉ ps.map Prod.fst := h ▸ hnd.1
      simp [dictErase, h, alookup_eq_none_of_not_mem k ps hk]
    · simp [dictErase, h, alookup, ih hnd.2]

/-! ## Claim theorems -/

/-- C9: for every `BeaconAdvertisement` constructed with at least one of
`measured_power_dbm` and `tx_power` provided, after `__post_init__` the two
fields are equal, a missing one is filled from the other, and when both are
provided (even if they disagree) `measured_power_dbm` is kept. -/
theorem c9_post_init_unifies (mp tx : Option Int)
    (h : mp.isSome = true ∨ tx.isSome = true) :
    ((beaconPostInit mp tx).1 = (beaconPostInit mp tx).2) ∧
    (mp = none → beaconPostInit mp tx = (tx, tx)) ∧
    (tx = none → beaconPostInit mp tx = (mp, mp)) ∧
    (∀ m t : Int, mp = some m → tx = some t →
      (beaconPostInit mp tx).1 = some m) := by
  cases mp with
  | none =>
    cases tx with
    | none => simp at h
    | some t => simp [beaconPostInit]
  | some m =>
    cases tx with
    | none => simp [beaconPostInit]
    | some t => by_cases hmt : m = t <;> simp [beaconPostInit, hmt]

/-- Witness for C9 at `measured_power_dbm = -59`, `tx_power = -70`. -/
theorem c9_post_init_unifies_witness :
    (beaconPostInit (some (-59)) (some (-70))).1 =
      (beaconPostInit (some (-59)) (some (-70))).2 ∧
    (beaconPostInit (some (-59)) (some (-70))).1 = some (-59) := by
  have h := c9_post_init_unifies (some (-59)) (some (-70)) (Or.inl rfl)
  exact ⟨h.1, h.2.2.2 (-59) (-70) rfl rfl⟩

/-- C10: deleting an address that is not present leaves the store unchanged
and notifies nobody; `on_device_deleted` fires only for a present address,
whose entry is then removed. -/
theorem c10_delete_contract (devices : List (String × Dev)) (address : String)
    (hnd : (devices.map Prod.fst).Nodup) :
    (alookup address devices = none →
      repoDelete devices address = (devices, [])) ∧
    ((repoDelete devices address).2 ≠ [] →
      (alookup address devices).isSome = true ∧
      (repoDelete devices address).2 = [Notif.deleted address] ∧
      alookup address (repoDelete devices address).1 = none) := by
  constructor
  · intro h
    simp [repoDelete, h]
  · intro h
    by_cases hp : (alookup address devices).isSome
    · exact ⟨hp, by simp [repoDelete, hp],
        by simp [repoDelete, hp, alookup_dictErase_self address devices hnd]⟩
    · exact absurd (by simp [repoDelete, hp]) h

/-- Witness for C10: deleting the absent address "BB" from a one-entry
store is a silent no-op. -/
theorem c10_delete_contract_witness :
    repoDelete [("AA", ⟨"AA", none, -40, []⟩)] "BB" =
      ([("AA", ⟨"AA", none, -40, []⟩)], []) := by
  exact (c10_delete_contract [("AA", ⟨"AA", none, -40, []⟩)] "BB"
    (by decide)).1 (by decide)

/-- C2 counterexample: saving a candidate for a present address whose change
is not significant (RSSI delta 1 < 5, same name, same payload, under both
the observer's policy and the spec's policy) still replaces the stored
snapshot with the candidate and still dispatches `on_device_updated`,
contrary to the claim that the candidate is discarded and no observer is
notified. -/
theorem c2_save_counterexample :
    repoSave [("AA", ⟨"AA", some "n", -50, []⟩)] ⟨"AA", some "n", -51, []⟩ =
      ([("AA", ⟨"AA", some "n", -51, []⟩)],
       [Notif.updated ⟨"AA", some "n", -51, []⟩]) ∧
    observerSignificant (some ⟨-50, some "n"⟩) ⟨"AA", some "n", -51, []⟩ = false ∧
    specSignificant (-50) (some "n") [] (-51) (some "n") [] = false := by
  decide

/-- C2 amended: every save stores the candidate under its address; a save
for an absent address dispatches `on_device_created` exactly once, and a
save for a present address always dispatches `on_device_updated` exactly
once — the significance filter lives in `EventPublishingObserver`, which
publishes a `DeviceUpdated` event exactly when its change-detection test is
significant. -/
theorem c2_save_contract (devices : List (String × Dev)) (d : Dev) :
    (alookup d.address (repoSave devices d).1 = some d) ∧
    (alookup d.address devices = none →
      (repoSave devices d).2 = [Notif.created d]) ∧
    ((alookup d.address devices).isSome = true →
      (repoSave devices d).2 = [Notif.updated d]) ∧
    (∀ st : List (String × LastKnown),
      (onDeviceUpdated st d).2 = observerSignificant (alookup d.address st) d) := by
  refine ⟨?_, ?_, ?_, ?_⟩
  · simp only [repoSave]
    split <;> exact alookup_dictInsert_self _ _ _
  · intro h
    simp [repoSave, h]
  · intro h
    rw [Option.isSome_iff_exists] at h
    obtain ⟨v, hv⟩ := h
    simp [repoSave, hv]
  · intro st
    by_cases h : observerSignificant (alookup d.address st) d <;>
      simp [onDeviceUpdated, h]

/-- Witness for C2 amended: saving to an empty store keeps the snapshot and
dispatches `on_device_created` once. -/
theorem c2_save_contract_witness :
    alookup "AA" (repoSave [] ⟨"AA", none, -40, []⟩).1 =
      some ⟨"AA", none, -40, []⟩ ∧
    (repoSave [] ⟨"AA", none, -40, []⟩).2 = [Notif.created ⟨"AA", none, -40, []⟩] := by
  exact ⟨(c2_save_contract [] ⟨"AA", none, -40, []⟩).1,
    (c2_save_contract [] ⟨"AA", none, -40, []⟩).2.1 rfl⟩

/-- C1: the adapter's RSSI delta is computed from the stored RSSI alone
(`abs(existing_device.rssi.value - existing_device.rssi.value)`), so a
stored RSSI of -40 against an incoming candidate RSSI of -90 — a 50 dB
move, same name, same payload — is classified as not significant, while the
claimed policy (restated by `specSignificant`) classifies it significant;
indeed the adapter's verdict never depends on the incoming RSSI at all. -/
theorem c1_rssi_delta_ignores_candidate :
    adapterSignificant (-40) (some "x") [(76, [2, 21])] (-90) (some "x")
      [(76, [2, 21])] = false ∧
    specSignificant (-40) (some "x") [(76, [2, 21])] (-90) (some "x")
      [(76, [2, 21])] = true ∧
    (∀ (e : Int) (en : Option String) (ed : List (Nat × List Nat))
       (a a' : Int) (dn : Option String) (ad : List (Nat × List Nat)),
      adapterSignificant e en ed a dn ad = adapterSignificant e en ed a' dn ad) := by
  refine ⟨by decide, by decide, ?_⟩
  intro e en ed a a' dn ad
  rfl

/-- C4 counterexample: the adapter's queue is `asyncio.Queue()` with the
default `maxsize` of 0, which in asyncio means unbounded — there is no
fixed finite capacity, and an enqueue onto an already long queue still
appends instead of dropping. -/
theorem c4_queue_counterexample :
    discoveredQueueMaxsize = 0 ∧
    ¬ 0 < discoveredQueueMaxsize ∧
    (enqueueDiscovered
        (List.replicate 1000 ⟨"AA", none, -40, []⟩) ⟨"BB", none, -41, []⟩).2
      = false ∧
    (enqueueDiscovered
        (List.replicate 1000 ⟨"AA", none, -40, []⟩) ⟨"BB", none, -41, []⟩).1.length
      = 1001 := by
  have hq : ∀ (items : List Dev) (x : Dev),
      enqueueDiscovered items x = (items ++ [x], false) := by
    intro items x
    simp [enqueueDiscovered, putNowait, discoveredQueueMaxsize]
  refine ⟨rfl, by decide, ?_, ?_⟩
  · rw [hq]
  · rw [hq]
    simp only [List.length_append, List.length_replicate, List.length_cons,
      List.length_nil]

/-- C4 amended: the queue is unbounded (asyncio default `maxsize = 0`), so
`put_nowait` never raises `QueueFull`: every enqueue appends the item and
the producer never blocks; the drop-and-warn handler is unreachable. -/
theorem c4_enqueue_never_drops (items : List Dev) (x : Dev) :
    enqueueDiscovered items x = (items ++ [x], false) := by
  simp [enqueueDiscovered, putNowait, discoveredQueueMaxsize]

/-- C5 counterexample: in the trace of `save`, the observer notification is
dispatched (and awaited) strictly before the lock release — the lock is not
released before observer work runs. -/
theorem c5_notify_under_lock :
    saveTrace.indexOf LockAction.notify < saveTrace.indexOf LockAction.release := by
  decide

/-- C5 amended: for `save`, and for `delete` of a present address, the
observer notification runs strictly inside the lock region (after the
acquire and the map operation, before the release); the lock is released
only after the awaited notification completes. -/
theorem c5_lock_trace_shape :
    saveTrace = [LockAction.acquire, LockAction.mapOp, LockAction.notify,
      LockAction.release] ∧
    saveTrace.indexOf LockAction.acquire < saveTrace.indexOf LockAction.mapOp ∧
    saveTrace.indexOf LockAction.mapOp < saveTrace.indexOf LockAction.notify ∧
    saveTrace.indexOf LockAction.notify < saveTrace.indexOf LockAction.release ∧
    (deleteTrace true).indexOf LockAction.notify <
      (deleteTrace true).indexOf LockAction.release := by
  decide

theorem drop_take_two (l : List Nat) (i : Nat) (h : i + 1 < l.length) :
    (l.drop i).take 2 = [l.getD i 0, l.getD (i + 1) 0] := by
  have h0 : i < l.length := Nat.lt_of_succ_lt h
  rw [List.drop_eq_getElem_cons h0, List.drop_eq_getElem_cons h,
    List.getD_eq_getElem l 0 h0, List.getD_eq_getElem l 0 h]
  rfl

/-- C3: every payload accepted by the beacon predicate decodes (never
raises) to a beacon whose UUID is bytes 2..18 in standard textual form,
whose major and minor are bytes 18..20 and 20..22 read big-endian, and
whose measured power is byte 22 read as a signed 8-bit value; in particular
the payload `02 15 <16-byte UUID> 00 01 00 02 C5` yields major 1, minor 2
and measured power -59. -/
theorem c3_ibeacon_decode (company_id : Nat) (data : List Nat)
    (h : can_decode company_id data = true) :
    (∃ b : IBeaconAdv,
      iBeaconDecode company_id data = some b ∧
      b.uuid = uuidStr ((data.drop 2).take 16) ∧
      b.major = ((data.drop 18).take 2).foldl (fun acc y => 256 * acc + y) 0 ∧
      b.minor = ((data.drop 20).take 2).foldl (fun acc y => 256 * acc + y) 0 ∧
      b.measured_power_dbm = signed8 (data.getD 22 0)) ∧
    iBeaconDecode IBEACON_COMPANY_ID examplePayload =
      some ⟨"00112233-4455-6677-8899-aabbccddeeff", 1, 2, -59⟩ := by
  have hlen : 23 ≤ data.length := by
    simp only [can_decode, Bool.and_eq_true, decide_eq_true_eq] at h
    exact h.1.1.2
  constructor
  · refine ⟨⟨uuidStr ((data.drop 2).take 16),
      256 * data.getD 18 0 + data.getD 19 0,
      256 * data.getD 20 0 + data.getD 21 0,
      signed8 (data.getD 22 0)⟩, ?_, rfl, ?_, ?_, rfl⟩
    · simp [iBeaconDecode, h]
    · rw [drop_take_two data 18 (by omega)]
      simp [List.foldl]
    · rw [drop_take_two data 20 (by omega)]
      simp [List.foldl]
  · decide

/-- Witness for C3 at the spec's end-to-end example payload. -/
theorem c3_ibeacon_decode_witness :
    can_decode IBEACON_COMPANY_ID examplePayload = true ∧
    iBeaconDecode IBEACON_COMPANY_ID examplePayload =
      some ⟨"00112233-4455-6677-8899-aabbccddeeff", 1, 2, -59⟩ :=
  ⟨by decide, (c3_ibeacon_decode IBEACON_COMPANY_ID examplePayload (by decide)).2⟩

theorem tryDecoders_invoked {α : Type} (company_id : Nat) (data : List Nat)
    (ds : List (AdvDecoder α)) :
    (tryDecoders company_id data ds).2 =
      (ds.find? (fun d => d.canDecode company_id data)).toList := by
  induction ds with
  | nil => rfl
  | cons d ds ih =>
    by_cases h : d.canDecode company_id data = true
    · cases hd : d.decode company_id data <;>
        simp [tryDecoders, List.find?_cons, h, hd]
    · simp only [Bool.not_eq_true] at h
      simpa [tryDecoders, List.find?_cons, h] using ih

theorem tryDecoders_result_none {α : Type} (company_id : Nat) (data : List Nat)
    (ds : List (AdvDecoder α))
    (hf : ds.find? (fun d => d.canDecode company_id data) = none) :
    (tryDecoders company_id data ds).1 = none := by
  induction ds with
  | nil => rfl
  | cons d ds ih =>
    rw [List.find?_cons] at hf
    by_cases h : d.canDecode company_id data = true
    · simp [h] at hf
    · simp only [h] at hf
      simp only [tryDecoders, if_neg h]
      exact ih (by simpa using hf)

theorem tryDecoders_result_some {α : Type} (company_id : Nat) (data : List Nat)
    (ds : List (AdvDecoder α)) (d : AdvDecoder α)
    (hf : ds.find? (fun dd => dd.canDecode company_id data) = some d) :
    (tryDecoders company_id data ds).1 =
      match d.decode company_id data with
      | Except.ok a? => a?
      | Except.error _ => none := by
  induction ds with
  | nil => simp at hf
  | cons d0 ds ih =>
    by_cases h : d0.canDecode company_id data = true
    · simp only [List.find?_cons, h] at hf
      obtain rfl : d0 = d := by simpa using hf
      simp only [tryDecoders, if_pos h]
      cases hd : d0.decode company_id data <;> simp [hd]
    · simp only [Bool.not_eq_true] at h
      simp only [List.find?_cons, h] at hf
      simp only [tryDecoders, h, Bool.false_eq_true, if_false]
      exact ih hf

/-- C6: the registry's `decode` returns exactly one result per entry of the
manufacturer-data map; for each entry the registered decoders are tried in
registration order, exactly the first decoder whose `canDecode` holds has
its `decode` invoked (the rest are skipped); if the invoked decoder raises,
or returns no result, or if no decoder matches, the entry's result is the
generic advertisement built from the resolved vendor name and the
hex-encoded raw bytes — and `decode` is total, so no decoder exception
reaches the caller. -/
theorem c6_registry_contract {α : Type} (table : List (Nat × String))
    (decoders : List (AdvDecoder α)) (manufacturer_data : List (Nat × List Nat))
    (company_id : Nat) (data : List Nat) :
    (registryDecode table decoders manufacturer_data).length =
      manufacturer_data.length ∧
    ((tryDecoders company_id data decoders).2 =
      (decoders.find? (fun d => d.canDecode company_id data)).toList) ∧
    (∀ d : AdvDecoder α,
      decoders.find? (fun dd => dd.canDecode company_id data) = some d →
      decodeEntry table decoders company_id data =
        match d.decode company_id data with
        | Except.ok (some a) =>
          ⟨vendorName table company_id, RegAdvertisement.specific a, data⟩
        | _ =>
          ⟨vendorName table company_id,
           RegAdvertisement.generic
             (vendorName table company_id ++ " - Raw: " ++ bytesHex data),
           data⟩) ∧
    (decoders.find? (fun d => d.canDecode company_id data) = none →
      decodeEntry table decoders company_id data =
        ⟨vendorName table company_id,
         RegAdvertisement.generic
           (vendorName table company_id ++ " - Raw: " ++ bytesHex data),
         data⟩) := by
  refine ⟨by simp [registryDecode], tryDecoders_invoked company_id data decoders,
    ?_, ?_⟩
  · intro d hd
    have hr := tryDecoders_result_some company_id data decoders d hd
    cases hdd : d.decode company_id data with
    | ok a? =>
      cases a? with
      | none => simp [decodeEntry, hr, hdd]
      | some a => simp [decodeEntry, hr, hdd]
    | error e => simp [decodeEntry, hr, hdd]
  · intro hf
    have hr := tryDecoders_result_none company_id data decoders hf
    simp [decodeEntry, hr]

/-- Witness for C6: the registry as constructed in the source (the single
registered `IBeaconDecoder`) decodes the example payload entry through the
first-match path. -/
theorem c6_registry_contract_witness :
    decodeEntry [] [iBeaconRegisteredDecoder] IBEACON_COMPANY_ID examplePayload =
      ⟨vendorName [] IBEACON_COMPANY_ID,
       RegAdvertisement.specific ⟨"00112233-4455-6677-8899-aabbccddeeff", 1, 2, -59⟩,
       examplePayload⟩ := by
  have h := (c6_registry_contract [] [iBeaconRegisteredDecoder] []
    IBEACON_COMPANY_ID examplePayload).2.2.1 iBeaconRegisteredDecoder (by rfl)
  rw [h]
  decide

/-- C7: for measured power in `[-100, -10]`, exponent `n > 0` and
`rssi < 0`, `estimate_distance` returns `10 ^ ((A - rssi) / (10 n))`;
for fixed measured power and exponent the estimate strictly increases as
`rssi` decreases; and the result is `none` exactly when the measured power
is absent or out of range, the exponent is nonpositive, or `rssi ≥ 0`. -/
theorem c7_estimate_distance :
    (∀ (A : ℤ) (n rssi : ℝ), -100 ≤ A → A ≤ -10 → 0 < n → rssi < 0 →
      estimate_distance (some A) rssi n =
        some ((10 : ℝ) ^ (((A : ℝ) - rssi) / (10 * n)))) ∧
    (∀ (A : ℤ) (n r1 r2 d1 d2 : ℝ), r1 < r2 →
      estimate_distance (some A) r1 n = some d1 →
      estimate_distance (some A) r2 n = some d2 → d2 < d1) ∧
    (∀ (A? : Option ℤ) (rssi n : ℝ),
      estimate_distance A? rssi n = none ↔
        (A? = none ∨ (∃ A, A? = some A ∧ ¬(-100 ≤ A ∧ A ≤ -10)) ∨
          n ≤ 0 ∨ 0 ≤ rssi)) := by
  refine ⟨?_, ?_, ?_⟩
  · intro A n rssi h1 h2 h3 h4
    simp only [estimate_distance]
    rw [if_neg (not_le.mpr h3), if_neg (not_not_intro ⟨h1, h2⟩),
      if_neg (not_le.mpr h4)]
  · intro A n r1 r2 d1 d2 hlt h1 h2
    simp only [estimate_distance] at h1 h2
    by_cases hn : n ≤ 0
    · rw [if_pos hn] at h1
      exact absurd h1 (by simp)
    rw [if_neg hn] at h1 h2
    by_cases hA : ¬(-100 ≤ A ∧ A ≤ -10)
    · rw [if_pos hA] at h1
      exact absurd h1 (by simp)
    rw [if_neg hA] at h1 h2
    by_cases hr1 : 0 ≤ r1
    · rw [if_pos hr1] at h1
      exact absurd h1 (by simp)
    rw [if_neg hr1] at h1
    by_cases hr2 : 0 ≤ r2
    · rw [if_pos hr2] at h2
      exact absurd h2 (by simp)
    rw [if_neg hr2] at h2
    have e1 := Option.some.inj h1
    have e2 := Option.some.inj h2
    subst e1
    subst e2
    have h10n : (0 : ℝ) < 10 * n := by
      have := not_le.mp hn
      positivity
    have hd : ((A : ℝ) - r2) / (10 * n) < ((A : ℝ) - r1) / (10 * n) :=
      (div_lt_div_iff_of_pos_right h10n).mpr (sub_lt_sub_left hlt _)
    exact (Real.rpow_lt_rpow_left_iff (by norm_num)).mpr hd
  · intro A? rssi n
    cases A? with
    | none => simp [estimate_distance]
    | some A =>
      simp only [estimate_distance]
      constructor
      · intro h
        by_cases hn : n ≤ 0
        · exact Or.inr (Or.inr (Or.inl hn))
        rw [if_neg hn] at h
        by_cases hA : ¬(-100 ≤ A ∧ A ≤ -10)
        · exact Or.inr (Or.inl ⟨A, rfl, hA⟩)
        rw [if_neg hA] at h
        by_cases hr : 0 ≤ rssi
        · exact Or.inr (Or.inr (Or.inr hr))
        rw [if_neg hr] at h
        exact absurd h (by simp)
      · intro h
        rcases h with h | ⟨B, hB, hnr⟩ | h | h
        · exact absurd h (by simp)
        · obtain rfl : B = A := (Option.some.inj hB).symm
          by_cases hn : n ≤ 0
          · rw [if_pos hn]
          · rw [if_neg hn, if_pos hnr]
        · rw [if_pos h]
        · by_cases hn : n ≤ 0
          · rw [if_pos hn]
          · rw [if_neg hn]
            by_cases hA : ¬(-100 ≤ A ∧ A ≤ -10)
            · rw [if_pos hA]
            · rw [if_neg hA, if_pos h]

/-- Witness for C7 at the spec's example: measured power -59, rssi -69,
exponent 2. -/
theorem c7_estimate_distance_witness :
    estimate_distance (some (-59)) (-69) 2 =
      some ((10 : ℝ) ^ ((((-59 : ℤ) : ℝ) - (-69)) / (10 * 2))) :=
  c7_estimate_distance.1 (-59) 2 (-69) (by norm_num) (by norm_num)
    (by norm_num) (by norm_num)

/-- C8: `start_scan` fails with the "already running" `InvalidScanState`
exactly when a scan task is active, and otherwise transitions the session to
scanning, persists it, publishes `ScanStarted`, and starts the scanner's
background loop; `stop_scan` fails with the "no active scan"
`InvalidScanState` exactly when the current session is not scanning, and
otherwise transitions it to stopped, persists it, stops the scanner,
cancels the task, and publishes `ScanStopped` with the discovered-address
count. -/
theorem c8_scan_lifecycle (s : ManagerState) (new_id : String) (scan : Scan) :
    (taskActive s.scan_task = true →
      start_scan s new_id = Except.error InvalidScanState.alreadyRunning) ∧
    (taskActive s.scan_task = false →
      start_scan s new_id = Except.ok
        ({ scan_task := some TaskStatus.running
           current_scan := some (startedScan s.current_scan new_id)
           published := s.published ++
             [ScanEvent.scanStarted (startedScan s.current_scan new_id).id]
           scannerRunning := true }, (startedScan s.current_scan new_id).id)) ∧
    (∀ e, start_scan s new_id = Except.error e →
      taskActive s.scan_task = true) ∧
    (s.current_scan = some scan → scan.state = ScanState.scanning →
      stop_scan s = Except.ok
        { scan_task := none
          current_scan := some { scan with state := ScanState.stopped }
          published := s.published ++
            [ScanEvent.scanStopped scan.id scan.discovered_devices.length]
          scannerRunning := false }) ∧
    ((∀ sc : Scan, s.current_scan = some sc → sc.state ≠ ScanState.scanning) →
      stop_scan s = Except.error InvalidScanState.noActiveScan) ∧
    (∀ e, stop_scan s = Except.error e →
      ∀ sc : Scan, s.current_scan = some sc → sc.state ≠ ScanState.scanning) := by
  refine ⟨?_, ?_, ?_, ?_, ?_, ?_⟩
  · intro h
    simp [start_scan, h]
  · intro h
    simp [start_scan, h]
  · intro e he
    by_contra h
    simp only [Bool.not_eq_true] at h
    simp [start_scan, h] at he
  · intro hcur hstate
    simp [stop_scan, hcur, hstate]
  · intro h
    cases hc : s.current_scan with
    | none => simp [stop_scan, hc]
    | some sc => simp [stop_scan, hc, h sc hc]
  · intro e he sc hsc hst
    simp [stop_scan, hsc, hst] at he

/-- Witness for C8: starting from the initial manager state succeeds and
produces a scanning session, a published `ScanStarted`, and a running task;
stopping that state then succeeds and publishes `ScanStopped` with count 0. -/
theorem c8_scan_lifecycle_witness :
    start_scan ⟨none, none, [], false⟩ "s1" = Except.ok
      (⟨some TaskStatus.running, some ⟨"s1", ScanState.scanning, []⟩,
        [ScanEvent.scanStarted "s1"], true⟩, "s1") ∧
    stop_scan ⟨some TaskStatus.running, some ⟨"s1", ScanState.scanning, []⟩,
        [ScanEvent.scanStarted "s1"], true⟩ = Except.ok
      ⟨none, some ⟨"s1", ScanState.stopped, []⟩,
        [ScanEvent.scanStarted "s1", ScanEvent.scanStopped "s1" 0], false⟩ := by
  constructor
  · exact (c8_scan_lifecycle ⟨none, none, [], false⟩ "s1"
      ⟨"s1", ScanState.idle, []⟩).2.1 rfl
  · exact (c8_scan_lifecycle ⟨some TaskStatus.running,
      some ⟨"s1", ScanState.scanning, []⟩, [ScanEvent.scanStarted "s1"], true⟩
      "s1" ⟨"s1", ScanState.scanning, []⟩).2.2.2.1 rfl rfl

end BleScope
